import Mathlib

/-!
Verification development for the amazon-music client library.

The Python modules `amazonmusic/track.py`, `amazonmusic/album.py`,
`amazonmusic/station.py` and `amazonmusic/amazonmusic.py` are shallowly
embedded below.  JSON documents are modelled by the inductive `JVal`, with
Python dictionary access (`d[k]`, `d.get(k)`, `d.get(k, v)`), truthiness and
`or`-chains embedded as total Lean functions; fallible constructors return
`Except PyErr`.  The paginated library readers, the station track generator,
the appConfig extraction step and the bootstrap redirect loop are embedded
as explicit state-passing functions over the sequence of responses the
remote service would return.
-/

/-- Python exception values that the embedded code can raise.
`keyError k` is a plain `KeyError(k)`; `keyErrorDump k` is a `KeyError`
whose message was rewritten to include a JSON dump of the offending
document (the `except KeyError` rewrap in `Track.stream_url`);
`exn m` is a bare `Exception(m)`. -/
inductive PyErr where
  | keyError (key : String)
  | keyErrorDump (key : String)
  | typeError
  | indexError
  | exn (msg : String)
  deriving DecidableEq

/-- JSON values, as decoded from the service's responses. -/
inductive JVal where
  | null
  | bool (b : Bool)
  | num (n : Int)
  | str (s : String)
  | arr (elements : List JVal)
  | obj (fields : List (String × JVal))

/-- A decoded JSON object: an association list of fields. -/
abbrev JObj := List (String × JVal)

/-- Field lookup in a JSON object (first binding wins, as in a dict). -/
def jLookup : JObj → String → Option JVal
  | [], _ => none
  | (key, v) :: rest, k => if key == k then some v else jLookup rest k

/-- Python truthiness of a JSON value. -/
def truthy : JVal → Bool
  | .null => false
  | .bool b => b
  | .num n => n != 0
  | .str s => !(s == "")
  | .arr xs => !xs.isEmpty
  | .obj fs => !fs.isEmpty

/-- Python `d.get(k)`: `None` when the key is absent. -/
def pyGet (o : JObj) (k : String) : JVal := (jLookup o k).getD .null

/-- Python `d.get(k, default)`. -/
def pyGetD (o : JObj) (k : String) (d : JVal) : JVal := (jLookup o k).getD d

/-- Python `d[k]`: raises `KeyError k` when the key is absent. -/
def pyItem (o : JObj) (k : String) : Except PyErr JVal :=
  match jLookup o k with
  | some v => .ok v
  | none => .error (.keyError k)

/-- Subscripting a JSON value as an object; non-objects raise `TypeError`. -/
def asObj : JVal → Except PyErr JObj
  | .obj fs => .ok fs
  | _ => .error .typeError

/-- Numeric coercion, as used by Python's division operator. -/
def asNum : JVal → Except PyErr Int
  | .num n => .ok n
  | .bool b => .ok (if b then 1 else 0)
  | _ => .error .typeError

/-- Normalized `Track` view model, from `track.py`. -/
structure Track where
  id : JVal
  name : JVal
  artist : JVal
  album : JVal
  albumArtist : Option JVal
  purchased : Bool
  coverUrl : Option JVal
  identifierType : JVal
  identifier : JVal
  duration : JVal

/-- `track.py`: `data.get('asin') or data['identifier']`. -/
def trackId (data : JObj) : Except PyErr JVal :=
  let a := pyGet data ("asin")
  if truthy a then .ok a else pyItem data ("identifier")

/-- `track.py`: `data.get('name') or data['title']`. -/
def trackName (data : JObj) : Except PyErr JVal :=
  let a := pyGet data ("name")
  if truthy a then .ok a else pyItem data ("title")

/-- `track.py`: `data.get('artistName') or data['artist']['name']`. -/
def trackArtist (data : JObj) : Except PyErr JVal :=
  let a := pyGet data ("artistName")
  if truthy a then .ok a else do
    let av ← pyItem data ("artist")
    let ao ← asObj av
    pyItem ao ("name")

/-- `track.py`: `data.get('albumName') or data['album'].get('name') or
data['album'].get('title')` (the last `.get` may leave `None`). -/
def trackAlbum (data : JObj) : Except PyErr JVal :=
  let a := pyGet data ("albumName")
  if truthy a then .ok a else do
    let av ← pyItem data ("album")
    let ao ← asObj av
    let n := pyGet ao ("name")
    if truthy n then pure n else pure (pyGet ao ("title"))

/-- `track.py`: the `coverUrl` if/elif cascade. -/
def trackCoverUrl (data : JObj) : Except PyErr (Option JVal) :=
  match jLookup data ("artUrlMap") with
  | some mv => do
      let mo ← asObj mv
      pure (some (pyGetD mo ("FULL") (pyGet mo ("LARGE"))))
  | none =>
    match jLookup data ("album") with
    | some av => do
        let ao ← asObj av
        match jLookup ao ("image") with
        | some iv => pure (some iv)
        | none => pure (jLookup data ("albumCoverImageFull"))
    | none => pure (jLookup data ("albumCoverImageFull"))

/-- `track.py`: the `identifierType`/`identifier` branch. -/
def trackIdent (data : JObj) : Except PyErr (JVal × JVal) :=
  match jLookup data ("identifierType") with
  | some tv => do
      let iv ← pyItem data ("identifier")
      pure (tv, iv)
  | none => do
      let iv ← pyItem data ("asin")
      pure (JVal.str ("ASIN"), iv)

/-- `track.py` lines 57-58:
`data.get('durationInSeconds') or data.get('duration') or data['durationSeconds']`. -/
def trackDuration (data : JObj) : Except PyErr JVal :=
  let a := pyGet data ("durationInSeconds")
  if truthy a then .ok a else
    let b := pyGet data ("duration")
    if truthy b then .ok b else pyItem data ("durationSeconds")

/-- `Track.__init__` from `track.py`, in source statement order. -/
def Track.ofData (data : JObj) : Except PyErr Track := do
  let i ← trackId data
  let n ← trackName data
  let ar ← trackArtist data
  let al ← trackAlbum data
  let aa := jLookup data ("albumArtistName")
  let pu := (jLookup data ("orderId")).isSome
  let cu ← trackCoverUrl data
  let (it, idf) ← trackIdent data
  let du ← trackDuration data
  pure { id := i, name := n, artist := ar, album := al, albumArtist := aa,
         purchased := pu, coverUrl := cu, identifierType := it,
         identifier := idf, duration := du }

/-- Python `v == 'MAX_CONCURRENCY_REACHED'` on a JSON value. -/
def isMaxConcurrencyStatus (v : JVal) : Bool :=
  match v with
  | .str s => s == "MAX_CONCURRENCY_REACHED"
  | _ => false

/-- The body of `Track.stream_url` after the `dmls/` call returns `resp`:
the concurrency sentinel check followed by
`stream_json['contentResponse']['urlList'][0]` with its `KeyError` rewrap. -/
def getRestrictedStreamingURL (resp : JObj) : Except PyErr JVal :=
  if (match jLookup resp ("statusCode") with
      | some v => isMaxConcurrencyStatus v
      | none => false) then
    .error (.exn ("MAX_CONCURRENCY_REACHED"))
  else
    match jLookup resp ("contentResponse") with
    | none => .error (.keyErrorDump ("contentResponse"))
    | some cv =>
      match cv with
      | .obj co =>
        match jLookup co ("urlList") with
        | none => .error (.keyErrorDump ("urlList"))
        | some (.arr (u :: _)) => .ok u
        | some (.arr []) => .error .indexError
        | some _ => .error .typeError
      | _ => .error .typeError

/-- One access of the `stream_url` property.  `cache` is the current value of
`self._url`; `resp` is the response the `dmls/` call would return if issued.
Result: (value returned or exception raised, new `self._url`, whether the
resolution call was issued). -/
def streamUrlAccess (cache : Option JVal) (resp : JObj) :
    Except PyErr JVal × Option JVal × Bool :=
  match cache with
  | some u => (.ok u, some u, false)
  | none =>
    match getRestrictedStreamingURL resp with
    | .ok u => (.ok u, some u, true)
    | .error e => (.error e, none, true)

/-- Normalized `Album` view model, from `album.py`.  `rating` is `none` for
Python `None`; `releaseDate` is the exact rational `originalReleaseDate / 1000`
when computed, `none` when left as Python `None`. -/
structure Album where
  id : JVal
  coverUrl : JVal
  name : JVal
  artist : JVal
  genre : JVal
  rating : Option JVal
  trackCount : JVal
  releaseDate : Option Rat

/-- `album.py`, metadata branch: `data.get('albumAsin') or data['asin']`. -/
def albumMetaId (m : JObj) : Except PyErr JVal :=
  let idv := pyGet m ("albumAsin")
  if truthy idv then .ok idv else pyItem m ("asin")

/-- `album.py`, the `'metadata' in data` branch of `Album.__init__`
(`mv` is `data['metadata']`), field by field in source order. -/
def albumOfMeta (data : JObj) (mv : JVal) : Except PyErr Album := do
  let tc ← pyItem data ("numTracks")
  let m ← asObj mv
  let i ← albumMetaId m
  let n ← pyItem m ("albumName")
  let ar ← pyItem m ("albumArtistName")
  let g ← pyItem m ("primaryGenre")
  pure { id := i,
         coverUrl := pyGetD m ("albumCoverImageFull") (pyGet m ("albumCoverImageMedium")),
         name := n, artist := ar, genre := g,
         rating := none, trackCount := tc, releaseDate := none }

/-- `album.py`, flat branch: `data.get('image') or data['albumArtImageUrl']`. -/
def albumFlatCover (data : JObj) : Except PyErr JVal :=
  let cv := pyGet data ("image")
  if truthy cv then .ok cv else pyItem data ("albumArtImageUrl")

/-- `album.py`, flat branch: `data.get('title') or data['albumName']`. -/
def albumFlatName (data : JObj) : Except PyErr JVal :=
  let tv := pyGet data ("title")
  if truthy tv then .ok tv else pyItem data ("albumName")

/-- `album.py`, flat branch:
`data['artist']['name'] if 'artist' in data else data['artistName']`. -/
def albumFlatArtist (data : JObj) : Except PyErr JVal :=
  match jLookup data ("artist") with
  | some av => do
      let ao ← asObj av
      pyItem ao ("name")
  | none => pyItem data ("artistName")

/-- `album.py`, flat branch:
`'productDetails' in data and data['productDetails'].get('primaryGenreName')`
(Python's `and` yields `False` itself when the key is absent). -/
def albumFlatGenre (data : JObj) : Except PyErr JVal :=
  match jLookup data ("productDetails") with
  | some pv => do
      let po ← asObj pv
      pure (pyGet po ("primaryGenreName"))
  | none => pure (JVal.bool false)

/-- `album.py`, flat branch:
`data['reviews']['average'] if 'reviews' in data else -1`. -/
def albumFlatRating (data : JObj) : Except PyErr (Option JVal) :=
  match jLookup data ("reviews") with
  | some rv => do
      let ro ← asObj rv
      let av ← pyItem ro ("average")
      pure (some av)
  | none => pure (some (JVal.num (-1)))

/-- `album.py`, flat branch:
`data.get('trackCount') or data['totalNumberOfTracks']`. -/
def albumFlatTrackCount (data : JObj) : Except PyErr JVal :=
  let tcv := pyGet data ("trackCount")
  if truthy tcv then .ok tcv else pyItem data ("totalNumberOfTracks")

/-- `album.py`, flat branch: `data['originalReleaseDate'] / 1000`. -/
def albumFlatReleaseDate (data : JObj) : Except PyErr Rat := do
  let rv ← pyItem data ("originalReleaseDate")
  let rn ← asNum rv
  pure ((rn : Rat) / 1000)

/-- `album.py`, the flat (no `metadata` key) branch of `Album.__init__`,
field by field in source order. -/
def albumOfFlat (data : JObj) : Except PyErr Album := do
  let i ← pyItem data ("asin")
  let cu ← albumFlatCover data
  let n ← albumFlatName data
  let ar ← albumFlatArtist data
  let g ← albumFlatGenre data
  let ra ← albumFlatRating data
  let tc ← albumFlatTrackCount data
  let rd ← albumFlatReleaseDate data
  pure { id := i, coverUrl := cu, name := n, artist := ar, genre := g,
         rating := ra, trackCount := tc, releaseDate := some rd }

/-- `Album.__init__` from `album.py`: shape dispatch on the `metadata` key. -/
def Album.ofData (data : JObj) : Except PyErr Album :=
  match jLookup data ("metadata") with
  | some mv => albumOfMeta data mv
  | none => albumOfFlat data

/-- One page of a `cirrus/` `searchLibrary` response
(`searchLibraryResponse.searchLibraryResult`), as consumed by the
`AmazonMusic.albums` and `AmazonMusic.artists` readers. -/
structure LibPage (α : Type) where
  searchReturnItemList : List α
  nextResultsToken : Option String

/-- Python truthiness of the `nextResultsToken` field
(`None` and the empty string are falsy). -/
def tokenTruthy : Option String → Bool
  | none => false
  | some s => !(s == "")

/-- The `while results:` loop of `AmazonMusic.albums`/`AmazonMusic.artists`:
`buf` is the `results` buffer, `tok` the current page's `nextResultsToken`,
`pages` the pages the service would return to successive follow-up calls.
Returns the items yielded (each is wrapped in an `Album`/`Artist` as it is
yielded) together with the list of tokens sent on follow-up calls, in order.
When the buffer empties with a truthy token but the supplied `pages` list is
exhausted, the run is cut off; the well-formedness predicate `LibWF` below
rules that situation out. -/
def libPump {α : Type} (buf : List α) (tok : Option String)
    (pages : List (LibPage α)) : List α × List (Option String) :=
  match buf, pages with
  | [], _ => ([], [])
  | [x], [] => ([x], [])
  | [x], p :: ps =>
    if tokenTruthy tok then
      let r := libPump p.searchReturnItemList p.nextResultsToken ps
      (x :: r.1, tok :: r.2)
    else ([x], [])
  | x :: b :: bs, pgs =>
    let r := libPump (b :: bs) tok pgs
    (x :: r.1, r.2)
  termination_by (pages.length, buf.length)

/-- A whole library read: the initial `cirrus/` call returns `first`, and
`rest` are the pages returned to successive follow-up calls.  Result: items
yielded and the total number of `cirrus/` calls issued (the initial call
plus one per follow-up token). -/
def libRead {α : Type} (first : LibPage α) (rest : List (LibPage α)) :
    List α × Nat :=
  let r := libPump first.searchReturnItemList first.nextResultsToken rest
  (r.1, r.2.length + 1)

/-- Well-formed page sequence from the service: every page before the last
carries a truthy continuation token and at least one item, and the last
page carries no truthy token. -/
def LibWF {α : Type} : List (LibPage α) → Prop
  | [] => True
  | [p] => tokenTruthy p.nextResultsToken = false
  | p :: ps => tokenTruthy p.nextResultsToken = true ∧
      p.searchReturnItemList ≠ [] ∧ LibWF ps

/-- Pages after the first are packed to the page size (100): full pages
followed by a final page holding between 1 and 100 items. -/
def LibPackedTail {α : Type} : List (LibPage α) → Prop
  | [] => True
  | [p] => 1 ≤ p.searchReturnItemList.length ∧ p.searchReturnItemList.length ≤ 100
  | p :: ps => p.searchReturnItemList.length = 100 ∧ LibPackedTail ps

/-- The whole page sequence is packed to the page size (100); a lone first
page may be empty (an empty library). -/
def LibPacked {α : Type} : List (LibPage α) → Prop
  | [] => True
  | [p] => p.searchReturnItemList.length ≤ 100
  | p :: ps => p.searchReturnItemList.length = 100 ∧ LibPackedTail ps

/-- The `while results:` loop of `AmazonMusic.own_playlists` and
`AmazonMusic.followed_playlists`: drains the buffer one item at a time,
with no continuation handling at all. -/
def drainQueue {α : Type} : List α → List α
  | [] => []
  | x :: xs => x :: drainQueue xs

/-- `AmazonMusic.own_playlists`: one `playlists/` call returning
`playlists`, then the drain loop.  Result: items yielded (each wrapped in
an `OwnPlaylist` as it is yielded) and the number of calls issued. -/
def ownPlaylistsRead {α : Type} (playlists : List α) : List α × Nat :=
  (drainQueue playlists, 1)

/-- `AmazonMusic.followed_playlists`: identical loop over a
`getFollowedPlaylistsInLibrary` response. -/
def followedPlaylistsRead {α : Type} (playlists : List α) : List α × Nat :=
  (drainQueue playlists, 1)

/-- One `mpqs/voiceenabled/getNextTracks` response, as consumed by
`Station.tracks` in `station.py`. -/
structure StationPage (τ : Type) where
  trackMetadataList : List τ
  nextPageToken : Option String

/-- Events observable while iterating `Station.tracks`: a track being
yielded, or a `getNextTracks` call being issued with the page token it
carries in its payload. -/
inductive StEv (τ : Type) where
  | yielded (t : τ)
  | called (pageToken : Option String)

/-- The `while tracks:` generator loop of `Station.tracks` (`station.py`
lines 42-63), as the trace of events it produces.  `buf` is the `tracks`
buffer, `pageToken` the current `self._pageToken`, `pages` the responses
the service would return to successive `getNextTracks` calls.  Whenever the
buffer empties after a yield, a call is issued unconditionally (there is no
token check); the loop ends only when a fetched page is empty.  When
`pages` runs out the trace is cut off right after recording the call. -/
def stationTrace {τ : Type} (buf : List τ) (pageToken : Option String)
    (pages : List (StationPage τ)) : List (StEv τ) :=
  match buf, pages with
  | [], _ => []
  | [x], [] => [.yielded x, .called pageToken]
  | [x], p :: ps =>
    .yielded x :: .called pageToken ::
      stationTrace p.trackMetadataList p.nextPageToken ps
  | x :: b :: bs, pgs => .yielded x :: stationTrace (b :: bs) pageToken pgs
  termination_by (pages.length, buf.length)

/-- Number of `getNextTracks` calls recorded in a station event trace. -/
def countCalled {τ : Type} : List (StEv τ) → Nat
  | [] => 0
  | .called _ :: rest => countCalled rest + 1
  | .yielded _ :: rest => countCalled rest

/-- The marker substring scanned for in `AmazonMusic.__init__`
(`'amznMusic.appConfig = ' in line`). -/
def appConfigMarker : List Char := ("amznMusic.appConfig = ").toList

/-- Python `re.sub(r';$', '', line)`: removes a single trailing semicolon. -/
def stripTrailingSemi (line : List Char) : List Char :=
  if line.getLast? = some (';') then line.dropLast else line

/-- The appConfig extraction of `amazonmusic.py` line 95:
`re.sub(r'^[^{]*', '', re.sub(r';$', '', line))` - drop one trailing
semicolon, then drop the longest leading run of characters other than the
opening brace.  The result is the text handed to `json.loads`. -/
def extractAppConfig (line : List Char) : List Char :=
  (stripTrailingSemi line).dropWhile (fun c => c != '\x7b')

/-- The slice of the parsed appConfig blob that the bootstrap loop
inspects. -/
structure AppConfig where
  isRecognizedCustomer : Int
  deriving DecidableEq

/-- Abstraction of one HTTP response during bootstrap: whether its redirect
history contains a 302 whose Location holds the sign-in path, and the
appConfig object found by the line scan of its body (if any). -/
structure HttpResponse where
  signinRedirect : Bool
  appConfig : Option AppConfig
  deriving DecidableEq

/-- The environment of one bootstrap run: the response to the initial
homepage GET, the response to the n-th login POST, and the response to the
n-th force-sign-in GET. -/
structure BootstrapEnv where
  initial : HttpResponse
  loginResponse : Nat → HttpResponse
  forceSigninResponse : Nat → HttpResponse

/-- The inner `while r.history and any(...)` loop of
`AmazonMusic.__init__`: repeatedly calls `_authenticate` (one login POST
each; the credential provider callable is invoked on the first such POST)
while the current response shows a sign-in redirect.  `logins` counts login
POSTs issued so far; `fuel` bounds the loop (it has none in the source).
Returns the settled response and the updated count, or `none` when fuel
runs out. -/
def authenticateLoop (env : BootstrapEnv) (fuel : Nat) (r : HttpResponse)
    (logins : Nat) : Option (HttpResponse × Nat) :=
  if r.signinRedirect then
    match fuel with
    | 0 => none
    | f + 1 => authenticateLoop env f (env.loginResponse logins) (logins + 1)
  else some (r, logins)

/-- The outer `while app_config is None:` loop of `AmazonMusic.__init__`:
settle redirects, scan for the appConfig object (raising when absent), and
on `isRecognizedCustomer == 0` issue one force-sign-in GET and start over.
Returns `none` on fuel exhaustion, `some (.error ())` for the
"Unable to find appConfig" exception, or `some (.ok (cfg, logins))` with
the accepted config and the total number of login POSTs issued. -/
def bootstrapLoop (env : BootstrapEnv) (fuel : Nat) (r : HttpResponse)
    (logins forces : Nat) : Option (Except Unit (AppConfig × Nat)) :=
  match fuel with
  | 0 => none
  | f + 1 =>
    match authenticateLoop env f r logins with
    | none => none
    | some (r2, logins2) =>
      match r2.appConfig with
      | none => some (.error ())
      | some cfg =>
        if cfg.isRecognizedCustomer = 0 then
          bootstrapLoop env f (env.forceSigninResponse forces) logins2 (forces + 1)
        else some (.ok (cfg, logins2))

/-- A whole bootstrap run, starting from the initial homepage response with
no login POSTs or force-sign-in GETs issued yet. -/
def bootstrapRun (env : BootstrapEnv) (fuel : Nat) :
    Option (Except Unit (AppConfig × Nat)) :=
  bootstrapLoop env fuel env.initial 0 0

theorem except_bind_eq_ok {ε α β : Type} {x : Except ε α} {f : α → Except ε β}
    {b : β} : (x >>= f) = .ok b ↔ ∃ a, x = .ok a ∧ f a = .ok b := by
  cases x <;> simp [Bind.bind, Except.bind]

theorem pyItem_eq_ok {o : JObj} {k : String} {v : JVal} :
    pyItem o k = .ok v ↔ jLookup o k = some v := by
  unfold pyItem
  cases h : jLookup o k <;> simp

theorem drainQueue_eq {α : Type} : ∀ l : List α, drainQueue l = l := by
  intro l
  induction l with
  | nil => rfl
  | cons x xs ih => simp [drainQueue, ih]

theorem libPump_token_false {α : Type} :
    ∀ (buf : List α) (tok : Option String) (pages : List (LibPage α)),
      tokenTruthy tok = false → libPump buf tok pages = (buf, []) := by
  intro buf
  induction buf with
  | nil => intro tok pages _; simp [libPump]
  | cons x rest ih =>
    intro tok pages h
    cases rest with
    | nil =>
      cases pages with
      | nil => simp [libPump]
      | cons p ps => simp [libPump, h]
    | cons b bs => simp [libPump, ih _ pages h]

theorem libPump_nonempty_buf {α : Type} :
    ∀ (buf : List α), buf ≠ [] →
      ∀ (tok : Option String) (p : LibPage α) (ps : List (LibPage α)),
        tokenTruthy tok = true →
        libPump buf tok (p :: ps) =
          (buf ++ (libPump p.searchReturnItemList p.nextResultsToken ps).1,
           tok :: (libPump p.searchReturnItemList p.nextResultsToken ps).2) := by
  intro buf
  induction buf with
  | nil => intro h; exact absurd rfl h
  | cons x rest ih =>
    intro _ tok p ps h
    cases rest with
    | nil => simp [libPump, h]
    | cons b bs => simp [libPump, ih (by simp) tok p ps h]

theorem libPump_wf {α : Type} :
    ∀ (ps : List (LibPage α)) (p : LibPage α), LibWF (p :: ps) →
      libPump p.searchReturnItemList p.nextResultsToken ps =
        (((p :: ps).map (·.searchReturnItemList)).flatten,
         (p :: ps).dropLast.map (·.nextResultsToken)) := by
  intro ps
  induction ps with
  | nil =>
    intro p h
    simp only [LibWF] at h
    rw [libPump_token_false _ _ _ h]
    simp
  | cons q qs ih =>
    intro p h
    simp only [LibWF] at h
    obtain ⟨h1, h2, h3⟩ := h
    rw [libPump_nonempty_buf _ h2 _ q qs h1, ih q h3]
    simp

theorem packedTail_len {α : Type} :
    ∀ ps : List (LibPage α), LibPackedTail ps → ps ≠ [] →
      ((ps.map (·.searchReturnItemList.length)).sum + 99) / 100 = ps.length ∧
        1 ≤ (ps.map (·.searchReturnItemList.length)).sum := by
  intro ps
  induction ps with
  | nil => intro _ h; exact absurd rfl h
  | cons q qs ih =>
    intro h _
    cases qs with
    | nil =>
      simp only [LibPackedTail] at h
      simp only [List.map, List.sum_cons, List.sum_nil, List.length]
      omega
    | cons r rs =>
      simp only [LibPackedTail] at h
      obtain ⟨h1, h2⟩ := h
      have h3 := ih h2 (by simp)
      simp only [List.map, List.sum_cons, List.length] at h3 ⊢
      omega

theorem packed_len {α : Type} :
    ∀ (ps : List (LibPage α)) (p : LibPage α), LibPacked (p :: ps) →
      (p :: ps).length =
        max 1 ((((p :: ps).map (·.searchReturnItemList.length)).sum + 99) / 100) := by
  intro ps p h
  cases ps with
  | nil =>
    simp only [LibPacked] at h
    simp only [List.map, List.sum_cons, List.sum_nil, List.length]
    omega
  | cons q qs =>
    simp only [LibPacked] at h
    obtain ⟨h1, h2⟩ := h
    have h3 := packedTail_len (q :: qs) h2 (by simp)
    simp only [List.map, List.sum_cons, List.length] at h3 ⊢
    omega

theorem dropWhile_append_all_ne {xs ys : List Char}
    (h : ∀ c ∈ xs, (c != '\x7b') = true) :
    (xs ++ ys).dropWhile (fun c => c != '\x7b') =
      ys.dropWhile (fun c => c != '\x7b') := by
  induction xs with
  | nil => rfl
  | cons a as ih =>
    simp only [List.cons_append, List.dropWhile]
    rw [h a (by simp)]
    exact ih (fun c hc => h c (by simp [hc]))

/-- C9: `own_playlists` and `followed_playlists` each issue exactly one API
call and yield exactly the items of that single response page, in order;
no continuation token or entry offset is consulted, so playlists beyond the
first page are never yielded. -/
theorem playlists_single_call_first_page_only {α : Type} (page : List α) :
    ownPlaylistsRead page = (page, 1) ∧ followedPlaylistsRead page = (page, 1) := by
  constructor <;> simp [ownPlaylistsRead, followedPlaylistsRead, drainQueue_eq]

/-- C10: the field-fallback chains in `Track.__init__` test truthiness, not
key presence: a present-but-falsy earlier alternative is skipped.  A document
whose `durationInSeconds` is `0` (with no `duration` key) resolves its
duration from `data['durationSeconds']` - raising `KeyError` when that key
is absent - and an empty-string `name` falls through to `data['title']`. -/
theorem track_fallback_is_by_truthiness :
    (∀ data : JObj, jLookup data ("durationInSeconds") = some (.num 0) →
       jLookup data ("duration") = none →
       trackDuration data = pyItem data ("durationSeconds"))
  ∧ (∀ data : JObj, jLookup data ("name") = some (.str ("")) →
       trackName data = pyItem data ("title")) := by
  constructor
  · intro data h0 h1
    simp [trackDuration, pyGet, h0, h1, truthy]
  · intro data h
    simp [trackName, pyGet, h, truthy]

theorem track_fallback_is_by_truthiness_example :
    trackDuration [(("durationInSeconds" : String), JVal.num 0),
        (("durationSeconds" : String), JVal.num 42)] = .ok (.num 42) ∧
    trackName [(("name" : String), JVal.str ("")),
        (("title" : String), JVal.str ("T"))] = .ok (.str ("T")) := by
  constructor
  · rw [track_fallback_is_by_truthiness.1
      [(("durationInSeconds" : String), JVal.num 0),
       (("durationSeconds" : String), JVal.num 42)] rfl rfl]
    rfl
  · rw [track_fallback_is_by_truthiness.2
      [(("name" : String), JVal.str ("")), (("title" : String), JVal.str ("T"))] rfl]
    rfl

/-- C4 counterexample: a Track document carrying every field the
constructor probes before the duration, but none of the three duration
keys.  Construction raises a plain `KeyError` naming `durationSeconds` -
not a field-mapping error naming `duration`, and with no dump of the
document attached (`track.py`'s `Track.__init__` has no rewrap). -/
theorem track_missing_duration_names_durationSeconds :
    Track.ofData [(("asin" : String), JVal.str ("A1")),
        (("name" : String), JVal.str ("Song")),
        (("artistName" : String), JVal.str ("Artist")),
        (("albumName" : String), JVal.str ("Alb")),
        (("identifierType" : String), JVal.str ("ASIN")),
        (("identifier" : String), JVal.str ("A1"))] =
      .error (.keyError ("durationSeconds")) ∧
    ("durationSeconds" : String) ≠ ("duration" : String) := by
  exact ⟨rfl, by decide⟩

/-- C4 (amended): for every Track document lacking all three of
`durationInSeconds`, `duration` and `durationSeconds`, the duration
fallback chain of `track.py` raises a missing-key error naming
`durationSeconds` (the last probed key), with no document dump. -/
theorem track_missing_duration_error (data : JObj)
    (h1 : jLookup data ("durationInSeconds") = none)
    (h2 : jLookup data ("duration") = none)
    (h3 : jLookup data ("durationSeconds") = none) :
    trackDuration data = .error (.keyError ("durationSeconds")) := by
  simp [trackDuration, pyGet, pyItem, h1, h2, h3, truthy]

theorem track_missing_duration_error_example :
    jLookup [] ("durationInSeconds") = none ∧
    trackDuration [] = .error (.keyError ("durationSeconds")) :=
  ⟨rfl, track_missing_duration_error [] rfl rfl rfl⟩

/-- C3: a line that ends with the JSON object `\x7b"k":"v"\x7d` preceded by
the appConfig marker and followed by a semicolon is reduced by the
extraction step to exactly that JSON object text, whatever brace-free
characters precede the object's opening brace on the line. -/
theorem appconfig_line_extraction (p : List Char)
    (hp : ∀ c ∈ p, (c != '\x7b') = true) :
    extractAppConfig (p ++ appConfigMarker ++ ("\x7b\"k\":\"v\"\x7d").toList ++ [';']) =
      ("\x7b\"k\":\"v\"\x7d").toList := by
  unfold extractAppConfig stripTrailingSemi
  rw [if_pos (List.getLast?_concat _), List.dropLast_concat, List.append_assoc,
    dropWhile_append_all_ne hp, dropWhile_append_all_ne (by decide)]
  rfl

theorem appconfig_line_extraction_example :
    (∀ c ∈ ("var appCfg = ").toList, (c != '\x7b') = true) ∧
    extractAppConfig (("var appCfg = ").toList ++ appConfigMarker ++
        ("\x7b\"k\":\"v\"\x7d").toList ++ [';']) = ("\x7b\"k\":\"v\"\x7d").toList :=
  ⟨by decide, appconfig_line_extraction _ (by decide)⟩

/-- C6: when the `dmls/` resolution response carries the
`MAX_CONCURRENCY_REACHED` status, accessing `stream_url` raises and leaves
`self._url` unset, so any later access with the cache still unset issues
the resolution call again (no negative caching); a successful resolution
memoizes the URL, and every access with a cached URL returns it without
issuing any call. -/
theorem stream_url_concurrency_memoization :
    (∀ resp : JObj,
        jLookup resp ("statusCode") = some (.str ("MAX_CONCURRENCY_REACHED")) →
        streamUrlAccess none resp =
          (.error (.exn ("MAX_CONCURRENCY_REACHED")), none, true))
  ∧ (∀ resp : JObj, (streamUrlAccess none resp).2.2 = true)
  ∧ (∀ (u : JVal) (resp : JObj),
        streamUrlAccess (some u) resp = (.ok u, some u, false))
  ∧ (∀ (resp : JObj) (v : JVal) (s : Option JVal) (b : Bool),
        streamUrlAccess none resp = (.ok v, s, b) → s = some v ∧ b = true) := by
  refine ⟨?_, ?_, ?_, ?_⟩
  · intro resp h
    simp [streamUrlAccess, getRestrictedStreamingURL, h, isMaxConcurrencyStatus]
  · intro resp
    simp only [streamUrlAccess]
    cases getRestrictedStreamingURL resp <;> simp
  · intro u resp
    rfl
  · intro resp v s b h
    simp only [streamUrlAccess] at h
    cases hr : getRestrictedStreamingURL resp <;> rw [hr] at h <;> simp at h
    obtain ⟨h1, h2, h3⟩ := h
    exact ⟨h2 ▸ h1 ▸ rfl, h3⟩

theorem stream_url_concurrency_memoization_example :
    jLookup [(("statusCode" : String), JVal.str ("MAX_CONCURRENCY_REACHED"))]
        ("statusCode") = some (.str ("MAX_CONCURRENCY_REACHED")) ∧
    streamUrlAccess none
        [(("statusCode" : String), JVal.str ("MAX_CONCURRENCY_REACHED"))] =
      (.error (.exn ("MAX_CONCURRENCY_REACHED")), none, true) ∧
    streamUrlAccess (some (.str ("u1"))) [] =
      (.ok (.str ("u1")), some (.str ("u1")), false) :=
  ⟨rfl,
   stream_url_concurrency_memoization.1 _ rfl,
   stream_url_concurrency_memoization.2.2.1 (.str ("u1")) []⟩

/-- C8 counterexample: a run whose initial homepage fetch shows no sign-in
redirect, but whose appConfig reports `isRecognizedCustomer = 0`.  The
force-sign-in GET then redirects to the sign-in page, and the bootstrap
performs one login POST (so the credential provider is invoked) even though
the initial fetch had no redirect - the claim predicts zero. -/
theorem bootstrap_no_redirect_still_logs_in :
    (BootstrapEnv.mk ⟨false, some ⟨0⟩⟩ (fun _ => ⟨false, some ⟨1⟩⟩)
        (fun _ => ⟨true, some ⟨1⟩⟩)).initial.signinRedirect = false ∧
    bootstrapRun (BootstrapEnv.mk ⟨false, some ⟨0⟩⟩ (fun _ => ⟨false, some ⟨1⟩⟩)
        (fun _ => ⟨true, some ⟨1⟩⟩)) 5 = some (.ok (⟨1⟩, 1)) :=
  ⟨rfl, rfl⟩

/-- C8 (amended): when the initial homepage fetch shows no 302 redirect to
the sign-in path *and* its embedded appConfig marks the customer as
recognized, the bootstrap completes with zero login POSTs, so the
credential provider callable (invoked only inside `_authenticate`, i.e.
only when a login POST happens) is never invoked. -/
theorem bootstrap_fast_path_no_login (env : BootstrapEnv) (cfg : AppConfig)
    (fuel : Nat)
    (h1 : env.initial.signinRedirect = false)
    (h2 : env.initial.appConfig = some cfg)
    (h3 : cfg.isRecognizedCustomer ≠ 0) :
    bootstrapRun env (fuel + 1) = some (.ok (cfg, 0)) := by
  have ha : authenticateLoop env fuel env.initial 0 = some (env.initial, 0) := by
    unfold authenticateLoop
    simp [h1]
  unfold bootstrapRun bootstrapLoop
  simp [ha, h2, h3]

theorem bootstrap_fast_path_no_login_example :
    (BootstrapEnv.mk ⟨false, some ⟨1⟩⟩ (fun _ => ⟨false, none⟩)
        (fun _ => ⟨false, none⟩)).initial.signinRedirect = false ∧
    bootstrapRun (BootstrapEnv.mk ⟨false, some ⟨1⟩⟩ (fun _ => ⟨false, none⟩)
        (fun _ => ⟨false, none⟩)) 1 = some (.ok (⟨1⟩, 0)) :=
  ⟨rfl, bootstrap_fast_path_no_login _ ⟨1⟩ 0 rfl rfl (by decide)⟩

/-- C7: a station whose initial `trackMetadataList` has 3 items and whose
state carries a page token: consuming 4 items produces the trace prefix
yield, yield, yield, one `getNextTracks` call (carrying the stored token),
yield - exactly one follow-up call, after the 3rd item and before the
4th. -/
theorem station_fourth_item_one_fetch {τ : Type} (a b c d : τ) (ds : List τ)
    (t0 t1 : Option String) (rest : List (StationPage τ)) :
    (stationTrace [a, b, c] t0 (⟨d :: ds, t1⟩ :: rest)).take 5 =
      [.yielded a, .yielded b, .yielded c, .called t0, .yielded d] := by
  simp only [stationTrace]
  cases ds <;> cases rest <;> simp [stationTrace]

/-- C2 counterexample: a station whose current page is exhausted while no
continuation token is present (`self._pageToken` is `None`).  The claim
predicts termination with no further call, but `Station.tracks` has no
token check: it issues a `getNextTracks` call (with token `None` in the
payload) anyway. -/
theorem station_calls_even_without_token :
    stationTrace [(0 : Nat)] none [] = [.yielded 0, .called none] ∧
    countCalled (stationTrace [(0 : Nat)] none []) = 1 := by
  constructor
  · simp [stationTrace]
  · simp [stationTrace, countCalled]

/-- C2 (amended): the library readers (`albums`, `artists`) behave as
claimed - items are produced from the current page one at a time with no
call while the buffer is non-empty; when the buffer empties with a truthy
continuation token, exactly one further call is issued carrying that token
and the new page continues the stream; and the reader terminates once the
buffer is drained when no truthy token is present.  The station track
queue, however, issues a follow-up `getNextTracks` call on every page
exhaustion regardless of token presence, and stops only when a fetched
page is empty. -/
theorem reader_step_behavior {α : Type} :
    (∀ (x b : α) (bs : List α) (tok : Option String) (pgs : List (LibPage α)),
        libPump (x :: b :: bs) tok pgs =
          (x :: (libPump (b :: bs) tok pgs).1, (libPump (b :: bs) tok pgs).2))
  ∧ (∀ (buf : List α), buf ≠ [] →
        ∀ (tok : Option String) (p : LibPage α) (ps : List (LibPage α)),
          tokenTruthy tok = true →
          libPump buf tok (p :: ps) =
            (buf ++ (libPump p.searchReturnItemList p.nextResultsToken ps).1,
             tok :: (libPump p.searchReturnItemList p.nextResultsToken ps).2))
  ∧ (∀ (buf : List α) (tok : Option String) (pgs : List (LibPage α)),
        tokenTruthy tok = false → libPump buf tok pgs = (buf, []))
  ∧ (∀ (x : α) (ptok : Option String) (pages : List (StationPage α)),
        (stationTrace [x] ptok pages).take 2 = [.yielded x, .called ptok])
  ∧ (∀ (x : α) (ptok t2 : Option String) (ps : List (StationPage α)),
        stationTrace [x] ptok (⟨[], t2⟩ :: ps) = [.yielded x, .called ptok]) := by
  refine ⟨?_, libPump_nonempty_buf, libPump_token_false, ?_, ?_⟩
  · intro x b bs tok pgs
    simp [libPump]
  · intro x ptok pages
    cases pages <;> simp [stationTrace]
  · intro x ptok t2 ps
    simp [stationTrace]

theorem reader_step_behavior_example :
    libPump [1, 2] (some ("t")) ([] : List (LibPage Nat)) = ([1, 2], [])
  ∧ libPump [1] (some ("t")) [LibPage.mk [2] none] = ([1, 2], [some ("t")])
  ∧ libPump [(1 : Nat)] none ([] : List (LibPage Nat)) = ([1], [])
  ∧ (stationTrace [(1 : Nat)] none ([] : List (StationPage Nat))).take 2 =
      [.yielded 1, .called none]
  ∧ stationTrace [(1 : Nat)] (some ("t")) [StationPage.mk [] (some ("u"))] =
      [.yielded 1, .called (some ("t"))] := by
  have h := @reader_step_behavior Nat
  refine ⟨?_, ?_, h.2.2.1 [1] none [] rfl, h.2.2.2.1 1 none [], h.2.2.2.2 1 _ _ []⟩
  · rw [h.1 1 2 [] (some ("t")) []]
    simp [libPump]
  · rw [h.2.1 [1] (by simp) (some ("t")) (LibPage.mk [2] none) [] rfl]
    simp [libPump]

/-- C1 counterexample: an empty library.  The service answers the initial
call with a single empty page and no continuation token; the reader yields
nothing but has issued 1 call, while the claim's `ceil(total/pageSize)`
formula predicts `ceil(0/100) = 0` calls. -/
theorem library_reader_empty_library_one_call :
    libRead (LibPage.mk ([] : List Nat) none) [] = ([], 1) ∧
    ((0 + 99) / 100 : Nat) = 0 := by
  constructor
  · simp [libRead, libPump]
  · rfl

/-- C1 (amended): for every well-formed, page-size-packed sequence of
service pages, a library read (`albums`/`artists`) yields exactly the
concatenation of every page's items in page-then-within-page order and
issues exactly `max 1 (ceil(total/100))` calls: the `ceil(total/pageSize)`
of the claim except that the initial call is issued even for an empty
library (total 0 still costs 1 call).  In particular a 100-item page with
a token followed by a 37-item page without one gives 2 calls and 137
items. -/
theorem library_reader_pagination {α : Type} (p : LibPage α)
    (ps : List (LibPage α)) (hwf : LibWF (p :: ps)) (hpk : LibPacked (p :: ps)) :
    libRead p ps =
      (((p :: ps).map (·.searchReturnItemList)).flatten,
       max 1 ((((p :: ps).map (·.searchReturnItemList.length)).sum + 99) / 100)) := by
  unfold libRead
  rw [libPump_wf ps p hwf]
  have hlen := packed_len ps p hpk
  simp only [List.length] at hlen
  simp only [List.length_map, List.length_dropLast, List.length, Prod.mk.injEq]
  exact ⟨trivial, by omega⟩

theorem library_reader_pagination_example :
    LibWF [LibPage.mk (List.range 100) (some ("token")),
           LibPage.mk ((List.range 37).map (fun n => 100 + n)) none] ∧
    LibPacked [LibPage.mk (List.range 100) (some ("token")),
               LibPage.mk ((List.range 37).map (fun n => 100 + n)) none] ∧
    libRead (LibPage.mk (List.range 100) (some ("token")))
        [LibPage.mk ((List.range 37).map (fun n => 100 + n)) none] =
      ((([LibPage.mk (List.range 100) (some ("token")),
          LibPage.mk ((List.range 37).map (fun n => 100 + n)) none]).map
            (·.searchReturnItemList)).flatten,
       max 1 (((([LibPage.mk (List.range 100) (some ("token")),
                  LibPage.mk ((List.range 37).map (fun n => 100 + n)) none]).map
                    (·.searchReturnItemList.length)).sum + 99) / 100)) := by
  have hwf : LibWF [LibPage.mk (List.range 100) (some ("token")),
      LibPage.mk ((List.range 37).map (fun n => 100 + n)) none] := by
    simp only [LibWF]
    refine ⟨by decide, by simp, rfl⟩
  have hpk : LibPacked [LibPage.mk (List.range 100) (some ("token")),
      LibPage.mk ((List.range 37).map (fun n => 100 + n)) none] := by
    simp only [LibPacked, LibPackedTail]
    simp
  exact ⟨hwf, hpk, library_reader_pagination _ _ hwf hpk⟩

/-- C5: `Album` normalization dispatches on the `metadata` key.  With
`metadata` present it uses the nested shape (e.g. the name is the nested
`albumName`) and leaves `rating` and `releaseDate` as the unavailable
default `None`; without `metadata` it uses the flat shape and computes
`releaseDate` as `originalReleaseDate / 1000`. -/
theorem album_shape_normalization :
    (∀ (data : JObj) (mv : JVal) (a : Album),
        jLookup data ("metadata") = some mv → Album.ofData data = .ok a →
        a.rating = none ∧ a.releaseDate = none ∧
          (∀ m : JObj, mv = .obj m → jLookup m ("albumName") = some a.name))
  ∧ (∀ (data : JObj) (a : Album) (n : Int),
        jLookup data ("metadata") = none →
        jLookup data ("originalReleaseDate") = some (.num n) →
        Album.ofData data = .ok a →
        a.releaseDate = some ((n : Rat) / 1000)) := by
  constructor
  · intro data mv a hm hok
    unfold Album.ofData at hok
    rw [hm] at hok
    unfold albumOfMeta at hok
    simp only [except_bind_eq_ok] at hok
    obtain ⟨tc, htc, m2, hm2, i, hi, nm, hnm, ar, har, g, hg, hrec⟩ := hok
    simp only [pure, Except.pure, Except.ok.injEq] at hrec
    subst hrec
    refine ⟨rfl, rfl, ?_⟩
    intro m hmv
    subst hmv
    simp only [asObj, Except.ok.injEq] at hm2
    subst hm2
    exact pyItem_eq_ok.mp hnm
  · intro data a n hm hrd hok
    unfold Album.ofData at hok
    rw [hm] at hok
    unfold albumOfFlat at hok
    simp only [except_bind_eq_ok] at hok
    obtain ⟨i, hi, cu, hcu, nm, hnm, ar, har, g, hg, ra, hra, tc, htc, rd,
      hrd2, hrec⟩ := hok
    simp only [pure, Except.pure, Except.ok.injEq] at hrec
    subst hrec
    unfold albumFlatReleaseDate at hrd2
    simp only [except_bind_eq_ok] at hrd2
    obtain ⟨rv, hrv, rn, hrn, hpure⟩ := hrd2
    simp only [pure, Except.pure, Except.ok.injEq] at hpure
    subst hpure
    rw [pyItem_eq_ok, hrd] at hrv
    have hv : rv = .num n := (Option.some.inj hrv).symm
    subst hv
    simp only [asNum, Except.ok.injEq] at hrn
    subst hrn
    rfl

theorem album_shape_normalization_example :
    Album.ofData [(("numTracks" : String), JVal.num 10),
        (("metadata" : String), JVal.obj [(("albumAsin" : String), JVal.str ("B0")),
          (("albumName" : String), JVal.str ("X")),
          (("albumArtistName" : String), JVal.str ("Y")),
          (("primaryGenre" : String), JVal.str ("Rock"))])] =
      .ok (Album.mk (.str ("B0")) .null (.str ("X")) (.str ("Y")) (.str ("Rock"))
        none (.num 10) none) ∧
    (Album.mk (.str ("B0")) .null (.str ("X")) (.str ("Y")) (.str ("Rock"))
        none (.num 10) none : Album).rating = none ∧
    Album.ofData [(("asin" : String), JVal.str ("B1")),
        (("image" : String), JVal.str ("img")),
        (("title" : String), JVal.str ("T")),
        (("artistName" : String), JVal.str ("A")),
        (("totalNumberOfTracks" : String), JVal.num 12),
        (("originalReleaseDate" : String), JVal.num 2000)] =
      .ok (Album.mk (.str ("B1")) (.str ("img")) (.str ("T")) (.str ("A"))
        (.bool false) (some (.num (-1))) (.num 12)
        (some (((2000 : Int) : Rat) / 1000))) ∧
    (Album.mk (.str ("B1")) (.str ("img")) (.str ("T")) (.str ("A"))
        (.bool false) (some (.num (-1))) (.num 12)
        (some (((2000 : Int) : Rat) / 1000)) : Album).releaseDate =
      some (((2000 : Int) : Rat) / 1000) := by
  refine ⟨rfl, ?_, rfl, ?_⟩
  · exact (album_shape_normalization.1
      [(("numTracks" : String), JVal.num 10),
       (("metadata" : String), JVal.obj [(("albumAsin" : String), JVal.str ("B0")),
         (("albumName" : String), JVal.str ("X")),
         (("albumArtistName" : String), JVal.str ("Y")),
         (("primaryGenre" : String), JVal.str ("Rock"))])]
      (JVal.obj [(("albumAsin" : String), JVal.str ("B0")),
         (("albumName" : String), JVal.str ("X")),
         (("albumArtistName" : String), JVal.str ("Y")),
         (("primaryGenre" : String), JVal.str ("Rock"))])
      (Album.mk (.str ("B0")) .null (.str ("X")) (.str ("Y")) (.str ("Rock"))
        none (.num 10) none) rfl rfl).1
  · exact album_shape_normalization.2
      [(("asin" : String), JVal.str ("B1")),
       (("image" : String), JVal.str ("img")),
       (("title" : String), JVal.str ("T")),
       (("artistName" : String), JVal.str ("A")),
       (("totalNumberOfTracks" : String), JVal.num 12),
       (("originalReleaseDate" : String), JVal.num 2000)]
      (Album.mk (.str ("B1")) (.str ("img")) (.str ("T")) (.str ("A"))
        (.bool false) (some (.num (-1))) (.num 12)
        (some (((2000 : Int) : Rat) / 1000))) 2000 rfl rfl rfl
